import Mathlib

/-!
Shallow embedding of the delivery-service core of the
`observability-course` repository (Python sources under
`src/services/delivery-service/`), together with theorems settling the
frozen claims about it.

Conventions of the embedding:
* Python randomness is made explicit: every call of the `random` module
  is modelled by a dedicated input draw, carried in the `Rng` structure.
  `random.uniform a b` is `a + (b - a) * u` for a draw `u` with
  `0 ≤ u < 1` (the contract of `random.random`); `random.randint a b`
  is uniform on the inclusive range, modelled as `a + r % (b - a + 1)`
  for an arbitrary natural draw `r`; `random.choice xs` picks the
  element at a uniformly drawn index `< xs.length`, modelled as
  `xs.getD (i % xs.length)` for an arbitrary natural draw `i`.
* Python floats are modelled as rationals.
* The in-memory store `deliveries: dict[str, dict]` is modelled as an
  insertion-ordered association list with Python dict assignment
  semantics (`pyDictInsert`): assigning to an existing key replaces the
  value in place, otherwise the pair is appended.
* The outbound HTTP notification (httpx) is external to the repository;
  its outcome is an explicit input (`NotifyOutcome`), and
  `resp.raise_for_status()` raises exactly on the non-success statuses.
* Effects (metric events, span-recorded exceptions, warning logs) are
  collected in the returned `PDResult` record.
-/

/-- Python `random.uniform a b`: `a + (b - a) * u` where `u` is the
underlying `random.random()` draw in `[0, 1)`. -/
def pyUniform (a b u : ℚ) : ℚ := a + (b - a) * u

/-- Python `random.randint a b` (inclusive range): the draw `r` is an
arbitrary natural, reduced onto the `b - a + 1` possible values. -/
def pyRandint (a b : ℕ) (r : ℕ) : ℕ := a + r % (b - a + 1)

/-- Python `random.choice xs`: the element at a uniformly drawn index
below `xs.length`; the draw `i` is an arbitrary natural reduced mod the
length. -/
def pyChoice (xs : List String) (i : ℕ) : String := xs.getD (i % xs.length) ""

/-- Python `round(x, 6)` on a rational: round to 6 decimal places. -/
def round6 (x : ℚ) : ℚ := (round (x * 1000000) : ℤ) / 1000000

/-- Python dict assignment `d[k] = v` on an insertion-ordered dict:
replace in place if the key is present, otherwise append. -/
def pyDictInsert {α : Type} (d : List (String × α)) (k : String) (v : α) :
    List (String × α) :=
  if (d.lookup k).isSome then
    d.map (fun p => if p.1 = k then (k, v) else p)
  else
    d ++ [(k, v)]

/-- `main.py` line 69: the fixed five-driver roster. -/
def DRIVERS : List String := ["Alice", "Bob", "Carlos", "Diana", "Eve"]

/-- A GPS coordinate pair as produced by `fake_gps` (`main.py` 72-77). -/
structure Coords where
  lat : ℚ
  lng : ℚ
deriving DecidableEq, Repr

/-- `fake_gps` (`main.py` 72-77): a random coordinate near Paris; the two
`random.uniform(-0.05, 0.05)` calls are modelled by draws `ulat`, `ulng`
in `[0, 1)`. -/
def fake_gps (ulat ulng : ℚ) : Coords :=
  { lat := round6 (48.8566 + pyUniform (-(5/100)) (5/100) ulat)
    lng := round6 (2.3522 + pyUniform (-(5/100)) (5/100) ulng) }

/-- The Delivery record built by `process_delivery` (`main.py` 102-110). -/
structure Delivery where
  id : String
  order_id : String
  driver : String
  status : String
  pickup : Coords
  dropoff : Coords
  estimated_minutes : ℕ
deriving DecidableEq, Repr

/-- The explicit random draws consumed by one `process_delivery` call, in
source order: `random.choice(DRIVERS)`, `uuid.uuid4()`, the four
`random.uniform(-0.05, 0.05)` draws inside the two `fake_gps()` calls,
`random.uniform(0.5, 2.0)` (pickup delay), `random.randint(10, 40)`
(ETA), and `random.uniform(10, 40)` (histogram value). -/
structure Rng where
  driverIdx : ℕ
  uuid : String
  pickupLatU : ℚ
  pickupLngU : ℚ
  dropoffLatU : ℚ
  dropoffLngU : ℚ
  delayU : ℚ
  estDraw : ℕ
  durU : ℚ
deriving DecidableEq, Repr

/-- Outcome of the outbound `POST /notify` call (`main.py` 122-136): a
response with some status code, or a transport-level failure. -/
inductive NotifyOutcome where
  | response (statusCode : ℕ)
  | timeout
  | connectionError
deriving DecidableEq, Repr

/-- Whether the notification attempt raises inside the `try` block:
`httpx` raises on timeout or connection error, and
`resp.raise_for_status()` raises exactly when the status is not a 2xx
success status. -/
def notifyRaises : NotifyOutcome → Bool
  | .response c => !(200 ≤ c && c ≤ 299)
  | .timeout => true
  | .connectionError => true

/-- Result of one `process_delivery` call: the returned record, the
updated store, and the effect trace (metric events tagged with the
driver, span-recorded exceptions, warning logs). -/
structure PDResult where
  delivery : Delivery
  store : List (String × Delivery)
  counterEvents : List (ℕ × String)
  histEvents : List (ℚ × String)
  spanExceptions : ℕ
  warnings : ℕ
deriving DecidableEq, Repr

/-- `process_delivery` (`main.py` 83-145): assign a driver, build the
Delivery record, store it, emit one histogram observation and one
counter increment, attempt the notification (failures caught, recorded
on the span and logged, never propagated), and return the record. -/
def process_delivery (order_id restaurant : String) (rng : Rng)
    (notify : NotifyOutcome) (store : List (String × Delivery)) : PDResult :=
  let driver := pyChoice DRIVERS rng.driverIdx
  let delivery_id := rng.uuid.take 8
  let pickup_coords := fake_gps rng.pickupLatU rng.pickupLngU
  let dropoff_coords := fake_gps rng.dropoffLatU rng.dropoffLngU
  let _pickup_delay := pyUniform (1/2) 2 rng.delayU
  let estimated_minutes := pyRandint 10 40 rng.estDraw
  let delivery : Delivery :=
    { id := delivery_id
      order_id := order_id
      driver := driver
      status := "in_transit"
      pickup := pickup_coords
      dropoff := dropoff_coords
      estimated_minutes := estimated_minutes }
  let store1 := pyDictInsert store delivery_id delivery
  let histEvents := [(pyUniform 10 40 rng.durU, driver)]
  let counterEvents := [(1, driver)]
  let failed := notifyRaises notify
  { delivery := delivery
    store := store1
    counterEvents := counterEvents
    histEvents := histEvents
    spanExceptions := if failed then 1 else 0
    warnings := if failed then 1 else 0 }

/-! ## Consumer (`consumer.py`) -/

/-- Python `os.getenv name default`: the process environment is modelled
as a partial map from variable names to values. -/
def pyGetenv (env : String → Option String) (name default : String) : String :=
  (env name).getD default

/-- `consumer.py` line 25: queue name from the environment, default
`orders.ready`. -/
def QUEUE_NAME (env : String → Option String) : String :=
  pyGetenv env "RABBITMQ_QUEUE" "orders.ready"

/-- `consumer.py` line 33: the connection retry budget. -/
def retries : ℕ := 15

/-- `consumer.py` line 34: the fixed sleep between connection attempts,
in seconds. -/
def delay : ℕ := 3

/-- The retry loop of `start_consumer` (`consumer.py` 36-46), with the
broker modelled by `k`, the number of initially failing connection
attempts (attempt `a` succeeds iff `a > k`).  Returns the successful
attempt number (or `none` if the budget is exhausted) together with the
total seconds slept; each failed attempt logs a warning and sleeps
`delay` seconds, including the last one. -/
def connectAttemptsFrom (k : ℕ) : ℕ → ℕ → ℕ → Option ℕ × ℕ
  | 0, _, sleepAcc => (none, sleepAcc)
  | budget + 1, attempt, sleepAcc =>
    if k < attempt then (some attempt, sleepAcc)
    else connectAttemptsFrom k budget (attempt + 1) (sleepAcc + delay)

/-- Outcome of the connection phase of `start_consumer` (`consumer.py`
36-49): either a connection obtained on some attempt, or the
`RuntimeError` raised after the loop when `connection is None`. -/
inductive ConnectResult where
  | connected (attempt : ℕ) (sleptSeconds : ℕ)
  | fatalError (sleptSeconds : ℕ)
deriving DecidableEq, Repr

/-- The connection phase of `start_consumer` for a broker that fails the
first `k` attempts. -/
def start_consumer_connect (k : ℕ) : ConnectResult :=
  match connectAttemptsFrom k retries 1 0 with
  | (some a, s) => .connected a s
  | (none, s) => .fatalError s

/-- The queue/channel setup performed by `start_consumer` (`consumer.py`
51-54): `set_qos(prefetch_count=5)` and
`declare_queue(QUEUE_NAME, durable=True)`. -/
structure ConsumerSetup where
  queueName : String
  durable : Bool
  prefetch : ℕ
deriving DecidableEq, Repr

/-- The setup values as a function of the process environment: the queue
name comes from `QUEUE_NAME`, durability is the literal `True`, and the
prefetch count is the literal `5`. -/
def consumerSetup (env : String → Option String) : ConsumerSetup :=
  { queueName := QUEUE_NAME env, durable := true, prefetch := 5 }

/-- A setup datum is externally configurable when some two environments
give it different values. -/
def prefetchConfigurable : Prop :=
  ∃ e1 e2 : String → Option String,
    (consumerSetup e1).prefetch ≠ (consumerSetup e2).prefetch

/-- External configurability of the queue name, same reading. -/
def queueNameConfigurable : Prop :=
  ∃ e1 e2 : String → Option String,
    (consumerSetup e1).queueName ≠ (consumerSetup e2).queueName

/-! ### Header normalization and trace extraction -/

/-- An AMQP header value as delivered by aio-pika: a string, raw bytes,
or another scalar that the comprehension in `_handle_message` passes to
`str`. -/
inductive HeaderVal where
  | str (s : String)
  | bytes (bs : List ℕ)
  | int (n : ℤ)
  | bool (b : Bool)
deriving DecidableEq, Repr

/-- A UTF-8 continuation byte, `0x80`-`0xBF`. -/
def utf8Cont (b : ℕ) : Bool := 128 ≤ b && b ≤ 191

/-- Strict UTF-8 decoding of a byte list to code points (the behaviour
of Python `bytes.decode()`, which raises `UnicodeDecodeError` on
ill-formed input, modelled as `none`).  The fuel argument only bounds
recursion; `bs.length` is always enough. -/
def utf8DecodeAux : ℕ → List ℕ → Option (List ℕ)
  | _, [] => some []
  | 0, _ :: _ => none
  | fuel + 1, b :: rest =>
    if b ≤ 127 then
      (utf8DecodeAux fuel rest).map (fun cs => b :: cs)
    else if 194 ≤ b && b ≤ 223 then
      match rest with
      | c1 :: r =>
        if utf8Cont c1 then
          (utf8DecodeAux fuel r).map
            (fun cs => ((b - 192) * 64 + (c1 - 128)) :: cs)
        else none
      | [] => none
    else if 224 ≤ b && b ≤ 239 then
      match rest with
      | c1 :: c2 :: r =>
        let ok1 :=
          if b = 224 then 160 ≤ c1 && c1 ≤ 191
          else if b = 237 then 128 ≤ c1 && c1 ≤ 159
          else utf8Cont c1
        if ok1 && utf8Cont c2 then
          (utf8DecodeAux fuel r).map
            (fun cs => ((b - 224) * 4096 + (c1 - 128) * 64 + (c2 - 128)) :: cs)
        else none
      | _ => none
    else if 240 ≤ b && b ≤ 244 then
      match rest with
      | c1 :: c2 :: c3 :: r =>
        let ok1 :=
          if b = 240 then 144 ≤ c1 && c1 ≤ 191
          else if b = 244 then 128 ≤ c1 && c1 ≤ 143
          else utf8Cont c1
        if ok1 && utf8Cont c2 && utf8Cont c3 then
          (utf8DecodeAux fuel r).map
            (fun cs =>
              ((b - 240) * 262144 + (c1 - 128) * 4096 +
                (c2 - 128) * 64 + (c3 - 128)) :: cs)
        else none
      | _ => none
    else none

/-- Python `bytes.decode()`: strict UTF-8, `none` models the raised
`UnicodeDecodeError`. -/
def pyBytesDecode (bs : List ℕ) : Option String :=
  (utf8DecodeAux bs.length bs).map (fun cs => String.mk (cs.map Char.ofNat))

/-- One header value through the comprehension of `_handle_message`
(`consumer.py` 76-79): bytes are decoded (which can raise), anything
else goes through `str`. -/
def normalizeHeaderVal : HeaderVal → Option String
  | .bytes bs => pyBytesDecode bs
  | .str s => some s
  | .int n => some (toString n)
  | .bool b => some (if b then "True" else "False")

/-- The carrier-building dict comprehension (`consumer.py` 76-79): each
header value normalized to a string, in order; a decode error aborts the
whole comprehension (the exception propagates). -/
def buildCarrier : List (String × HeaderVal) → Option (List (String × String))
  | [] => some []
  | (k, v) :: rest =>
    match normalizeHeaderVal v with
    | some s => (buildCarrier rest).map (fun c => (k, s) :: c)
    | none => none

/-- A lowercase hexadecimal character. -/
def isLowerHexChar (c : Char) : Bool :=
  c.isDigit || (97 ≤ c.toNat && c.toNat ≤ 102)

/-- Split a character list on the dash character (the field separator of
the W3C traceparent format). -/
def splitDash : List Char → List (List Char)
  | [] => [[]]
  | c :: rest =>
    if c = '-' then [] :: splitDash rest
    else
      match splitDash rest with
      | [] => [[c]]
      | p :: ps => (c :: p) :: ps

/-- The remote span context recovered from a `traceparent` value. -/
structure SpanContext where
  traceId : String
  spanId : String
  traceFlags : String
deriving DecidableEq, Repr

/-- Model of the OpenTelemetry W3C `traceparent` parser (external
library): `version-traceid-spanid-flags`, all lowercase hex of fixed
widths, version `ff` and all-zero trace or span ids rejected; anything
malformed yields `none`, never an exception. -/
def parseTraceparentVal (s : String) : Option SpanContext :=
  match splitDash s.toList with
  | [ver, tid, sid, fl] =>
    if ver.length = 2 ∧ ver.all isLowerHexChar ∧ ver ≠ ['f', 'f'] ∧
        tid.length = 32 ∧ tid.all isLowerHexChar ∧ ¬tid.all (fun c => c = '0') ∧
        sid.length = 16 ∧ sid.all isLowerHexChar ∧ ¬sid.all (fun c => c = '0') ∧
        fl.length = 2 ∧ fl.all isLowerHexChar then
      some { traceId := String.mk tid, spanId := String.mk sid
             traceFlags := String.mk fl }
    else none
  | _ => none

/-- Model of `opentelemetry.propagate.extract` (`consumer.py` 82): look
up `traceparent` in the carrier and parse it; an absent or invalid value
yields the empty context (`none`, a fresh unlinked trace), never an
error.  Total by construction. -/
def extractContext (carrier : List (String × String)) : Option SpanContext :=
  (carrier.lookup "traceparent").bind parseTraceparentVal

/-! ### Message bodies and message handling -/

/-- A JSON value, as produced by `json.loads`. -/
inductive JVal where
  | null
  | bool (b : Bool)
  | num (n : ℤ)
  | str (s : String)
  | arr (xs : List JVal)
  | obj (fields : List (String × JVal))

/-- A message body: either valid JSON parsing to a value, or not valid
JSON, in which case `json.loads` raises. -/
inductive MsgBody where
  | json (v : JVal)
  | notJson

/-- An inbound AMQP message as seen by `_handle_message`. -/
structure Msg where
  headers : List (String × HeaderVal)
  body : MsgBody

/-- Python `data.get(key, default)`: defined for dicts, raises
`AttributeError` (modelled as `Except.error`) on any other JSON
value. -/
def jsonGet (v : JVal) (key : String) (default : JVal) : Except Unit JVal :=
  match v with
  | .obj fields => .ok ((fields.lookup key).getD default)
  | _ => .error ()

/-- The observable outcome of `_handle_message` (`consumer.py` 63-115):
whether it returned normally or raised (after logging the error), the
extracted span context when extraction was reached, and the arguments of
the calls made to `process_delivery_fn`. -/
structure HandleOutcome where
  result : Except Unit (JVal × JVal)
  errorLogs : ℕ
  usedCtx : Option (Option SpanContext)
  handlerCalls : List (JVal × JVal)

/-- `_handle_message` (`consumer.py` 63-115): build the carrier (a
decode error raises), extract the context, parse the body (`json.loads`
raises on non-JSON), read `order_id` and `restaurant` with sentinel
defaults (`.get` raises on a non-object), run the handler inside the
consumer span.  Any exception is logged as an error and re-raised;
`process_delivery_fn` itself never raises. -/
def handle_message (m : Msg) : HandleOutcome :=
  match buildCarrier m.headers with
  | none =>
    { result := .error (), errorLogs := 1, usedCtx := none, handlerCalls := [] }
  | some carrier =>
    let ctx := extractContext carrier
    match m.body with
    | .notJson =>
      { result := .error (), errorLogs := 1, usedCtx := some ctx, handlerCalls := [] }
    | .json data =>
      match jsonGet data "order_id" (.str "unknown"),
          jsonGet data "restaurant" (.str "Unknown") with
      | .ok oid, .ok rest =>
        { result := .ok (oid, rest), errorLogs := 0, usedCtx := some ctx
          handlerCalls := [(oid, rest)] }
      | _, _ =>
        { result := .error (), errorLogs := 1, usedCtx := some ctx, handlerCalls := [] }

/-- The broker-side disposition of a delivered message under the
`message.process()` context of aio-pika (external library): completing
normally acknowledges, an escaping exception rejects with
`requeue=False` and then propagates. -/
inductive Disposition where
  | acked
  | nacked
deriving DecidableEq, Repr

/-- Result of running the consumer loop over a finite stream of
delivered messages. -/
structure ConsumeResult where
  dispositions : List (Msg × Disposition)
  errorLogs : ℕ
  crashed : Bool

/-- The consumer loop of `start_consumer` (`consumer.py` 57-60) under
aio-pika semantics: each message is handled inside
`async with message.process()`, which acks on normal completion and, on
an exception, rejects the message (`requeue=False`) and re-raises, so
the exception escapes the iterator and ends the loop. -/
def consumeLoop : List Msg → ConsumeResult
  | [] => { dispositions := [], errorLogs := 0, crashed := false }
  | m :: rest =>
    let h := handle_message m
    match h.result with
    | .ok _ =>
      let r := consumeLoop rest
      { dispositions := (m, .acked) :: r.dispositions
        errorLogs := h.errorLogs + r.errorLogs
        crashed := r.crashed }
    | .error _ =>
      { dispositions := [(m, .nacked)], errorLogs := h.errorLogs, crashed := true }

/-! ## Helper lemmas -/

/-- The element picked by `pyChoice` belongs to the list. -/
theorem pyChoice_mem (xs : List String) (i : ℕ) (h : xs ≠ []) : pyChoice xs i ∈ xs := by
  have hl : 0 < xs.length := List.length_pos.mpr h
  have hi : i % xs.length < xs.length := Nat.mod_lt _ hl
  rw [pyChoice, List.getD_eq_getElem?_getD, List.getElem?_eq_getElem hi]
  exact List.getElem_mem hi

/-- `pyRandint a b` stays in the inclusive range when `a ≤ b`. -/
theorem pyRandint_bounds (a b r : ℕ) (h : a ≤ b) :
    a ≤ pyRandint a b r ∧ pyRandint a b r ≤ b := by
  unfold pyRandint
  have := Nat.mod_lt r (show 0 < b - a + 1 by omega)
  omega

/-- `pyUniform a b` stays in `[a, b)` for a draw in `[0, 1)` when `a ≤ b`. -/
theorem pyUniform_bounds (a b u : ℚ) (hab : a ≤ b) (h0 : 0 ≤ u) (h1 : u < 1) :
    a ≤ pyUniform a b u ∧ pyUniform a b u ≤ b := by
  unfold pyUniform
  constructor <;> nlinarith

/-- Looking up a key that maps to `k` with a replaced value, at a
different key, sees the original dict. -/
theorem lookup_map_replace {α : Type} (t : List (String × α)) (k k2 : String) (v : α)
    (hne : k2 ≠ k) :
    (t.map (fun p => if p.1 = k then (k, v) else p)).lookup k2 = t.lookup k2 := by
  induction t with
  | nil => rfl
  | cons p t ih =>
    obtain ⟨k1, v1⟩ := p
    simp only [List.map_cons]
    by_cases hp : k1 = k
    · rw [if_pos (show (k1, v1).1 = k from hp)]
      have hb : (k2 == k) = false := beq_false_of_ne hne
      have hb1 : (k2 == k1) = false := beq_false_of_ne (fun h2 => hne (h2.trans hp))
      simp only [List.lookup_cons, hb, hb1]
      exact ih
    · rw [if_neg (show ¬(k1, v1).1 = k from hp)]
      cases hb : (k2 == k1) with
      | true => simp only [List.lookup_cons, hb]
      | false => simp only [List.lookup_cons, hb]; exact ih

/-- Replacing the value at a present key makes lookup at that key see
the new value. -/
theorem lookup_map_replace_self {α : Type} (t : List (String × α)) (k : String) (v : α)
    (h : (t.lookup k).isSome) :
    (t.map (fun p => if p.1 = k then (k, v) else p)).lookup k = some v := by
  induction t with
  | nil => simp [List.lookup_nil] at h
  | cons p t ih =>
    obtain ⟨k1, v1⟩ := p
    simp only [List.map_cons]
    by_cases hp : k1 = k
    · rw [if_pos (show (k1, v1).1 = k from hp)]
      simp [List.lookup_cons]
    · rw [if_neg (show ¬(k1, v1).1 = k from hp)]
      have hb : (k == k1) = false := beq_false_of_ne (fun h2 => hp h2.symm)
      simp only [List.lookup_cons, hb] at h ⊢
      exact ih h

/-- Appending a pair with an absent key makes lookup at that key see the
appended value. -/
theorem lookup_append_single {α : Type} (t : List (String × α)) (k : String) (v : α)
    (h : t.lookup k = none) : (t ++ [(k, v)]).lookup k = some v := by
  induction t with
  | nil => simp [List.lookup_cons]
  | cons p t ih =>
    obtain ⟨k1, v1⟩ := p
    rw [List.cons_append]
    cases hb : (k == k1) with
    | true => simp only [List.lookup_cons, hb] at h; cases h
    | false =>
      simp only [List.lookup_cons, hb] at h ⊢
      exact ih h

/-- Appending a pair does not change lookup at other keys. -/
theorem lookup_append_single_ne {α : Type} (t : List (String × α)) (k k2 : String) (v : α)
    (hne : k2 ≠ k) :
    (t ++ [(k, v)]).lookup k2 = t.lookup k2 := by
  induction t with
  | nil =>
    have hb : (k2 == k) = false := beq_false_of_ne hne
    simp [List.lookup_cons, hb]
  | cons p t ih =>
    obtain ⟨k1, v1⟩ := p
    rw [List.cons_append]
    cases hb : (k2 == k1) with
    | true => simp only [List.lookup_cons, hb]
    | false => simp only [List.lookup_cons, hb]; exact ih

/-- After a Python dict assignment, lookup at the assigned key sees the
assigned value. -/
theorem lookup_pyDictInsert_self {α : Type} (d : List (String × α)) (k : String) (v : α) :
    (pyDictInsert d k v).lookup k = some v := by
  rw [pyDictInsert]
  by_cases h : (d.lookup k).isSome
  · rw [if_pos h]; exact lookup_map_replace_self d k v h
  · rw [if_neg h]
    exact lookup_append_single d k v (Option.not_isSome_iff_eq_none.mp h)

/-- A Python dict assignment does not change lookup at other keys. -/
theorem lookup_pyDictInsert_ne {α : Type} (d : List (String × α)) (k k2 : String) (v : α)
    (hne : k2 ≠ k) : (pyDictInsert d k v).lookup k2 = d.lookup k2 := by
  rw [pyDictInsert]
  by_cases h : (d.lookup k).isSome
  · rw [if_pos h]; exact lookup_map_replace d k k2 v hne
  · rw [if_neg h]; exact lookup_append_single_ne d k k2 v hne

/-- Once every attempt in the remaining budget fails, the loop returns
no connection and has slept `delay` seconds per budgeted attempt. -/
theorem connectAttemptsFrom_exhaust (k : ℕ) :
    ∀ b a acc, a + b ≤ k + 1 → connectAttemptsFrom k b a acc = (none, acc + delay * b) := by
  intro b
  induction b with
  | zero => intro a acc _; simp [connectAttemptsFrom]
  | succ b ih =>
    intro a acc h
    rw [connectAttemptsFrom]
    rw [if_neg (show ¬k < a by omega)]
    rw [ih (a + 1) (acc + delay) (by omega)]
    have harith : acc + delay + delay * b = acc + delay * (b + 1) := by ring
    rw [harith]

/-! ## Claim theorems -/

/-- C3: if the broker connection attempt fails `k < 15` times and then
succeeds, `start_consumer` obtains a connection on attempt `k + 1` after
`3 * k` seconds of sleeping; if all 15 attempts fail, it raises the
explicit fatal `RuntimeError` and no connection is established. -/
theorem connect_retry_spec (k : ℕ) :
    (k < 15 → start_consumer_connect k = .connected (k + 1) (3 * k)) ∧
    (15 ≤ k → start_consumer_connect k = .fatalError 45) := by
  constructor
  · intro hk
    interval_cases k <;> rfl
  · intro hk
    rw [start_consumer_connect,
      connectAttemptsFrom_exhaust k retries 1 0 (by rw [retries]; omega)]
    rfl

/-- Witness for `connect_retry_spec`: three initial failures give a
connection on attempt 4 after 9 seconds; twenty failures give the fatal
error. -/
theorem connect_retry_spec_witness :
    start_consumer_connect 3 = .connected 4 9 ∧
    start_consumer_connect 20 = .fatalError 45 :=
  ⟨(connect_retry_spec 3).1 (by decide), (connect_retry_spec 20).2 (by decide)⟩

/-- C4: every `process_delivery` call produces and stores exactly one
Delivery record, with status `in_transit`, driver from the fixed
five-driver roster, `estimated_minutes` in the inclusive range
`[10, 40]`, and `order_id` equal to the argument; the store is exactly
the old store with this one record assigned at the new id. -/
theorem process_delivery_record_spec (order_id restaurant : String) (rng : Rng)
    (notify : NotifyOutcome) (store : List (String × Delivery)) :
    (process_delivery order_id restaurant rng notify store).delivery.status = "in_transit" ∧
    (process_delivery order_id restaurant rng notify store).delivery.driver ∈ DRIVERS ∧
    10 ≤ (process_delivery order_id restaurant rng notify store).delivery.estimated_minutes ∧
    (process_delivery order_id restaurant rng notify store).delivery.estimated_minutes ≤ 40 ∧
    (process_delivery order_id restaurant rng notify store).delivery.order_id = order_id ∧
    (process_delivery order_id restaurant rng notify store).delivery.id = rng.uuid.take 8 ∧
    (process_delivery order_id restaurant rng notify store).store =
      pyDictInsert store (rng.uuid.take 8)
        (process_delivery order_id restaurant rng notify store).delivery ∧
    (process_delivery order_id restaurant rng notify store).store.lookup
        ((process_delivery order_id restaurant rng notify store).delivery.id) =
      some (process_delivery order_id restaurant rng notify store).delivery := by
  refine ⟨by simp [process_delivery], ?_, ?_, ?_, by simp [process_delivery],
    by simp [process_delivery], by simp [process_delivery], ?_⟩
  · simp only [process_delivery]
    exact pyChoice_mem DRIVERS rng.driverIdx (by decide)
  · simp only [process_delivery]
    exact (pyRandint_bounds 10 40 rng.estDraw (by omega)).1
  · simp only [process_delivery]
    exact (pyRandint_bounds 10 40 rng.estDraw (by omega)).2
  · simp only [process_delivery]
    exact lookup_pyDictInsert_self _ _ _

/-- C9: the Delivery record inserted into the store is determined before
the notification attempt: the stored record and the whole store are
independent of the notification outcome, and the entry at the new id is
exactly the returned (pre-notification) record, unmodified. -/
theorem store_independent_of_notify (order_id restaurant : String) (rng : Rng)
    (n1 n2 : NotifyOutcome) (store : List (String × Delivery)) :
    (process_delivery order_id restaurant rng n1 store).store =
      (process_delivery order_id restaurant rng n2 store).store ∧
    (process_delivery order_id restaurant rng n1 store).delivery =
      (process_delivery order_id restaurant rng n2 store).delivery ∧
    (process_delivery order_id restaurant rng n1 store).store.lookup
        ((process_delivery order_id restaurant rng n1 store).delivery.id) =
      some (process_delivery order_id restaurant rng n1 store).delivery := by
  refine ⟨by simp [process_delivery], by simp [process_delivery], ?_⟩
  simp only [process_delivery]
  exact lookup_pyDictInsert_self _ _ _

/-- C6 counterexample: the prefetch (admission) limit is not externally
configurable; `set_qos(prefetch_count=5)` is a hard-coded literal, so no
two environments give different prefetch values. -/
theorem prefetch_not_configurable : ¬prefetchConfigurable := by
  rintro ⟨e1, e2, h⟩
  exact h rfl

/-- C6 amended: the queue is declared durable; the queue name is
externally configurable via `RABBITMQ_QUEUE` with default
`orders.ready`; the prefetch limit is the constant 5, not externally
configurable. -/
theorem consumer_setup_spec :
    (∀ env, (consumerSetup env).durable = true) ∧
    (∀ env, env "RABBITMQ_QUEUE" = none →
      (consumerSetup env).queueName = "orders.ready") ∧
    (∀ env v, env "RABBITMQ_QUEUE" = some v → (consumerSetup env).queueName = v) ∧
    queueNameConfigurable ∧
    (∀ env, (consumerSetup env).prefetch = 5) := by
  refine ⟨fun _ => rfl, fun env h => ?_, fun env v h => ?_, ?_, fun _ => rfl⟩
  · simp [consumerSetup, QUEUE_NAME, pyGetenv, h]
  · simp [consumerSetup, QUEUE_NAME, pyGetenv, h]
  · refine ⟨fun _ => none, fun _ => some "q", ?_⟩
    simp [consumerSetup, QUEUE_NAME, pyGetenv]

/-- Witness for `consumer_setup_spec` at two concrete environments. -/
theorem consumer_setup_spec_witness :
    (consumerSetup fun _ => none).durable = true ∧
    (consumerSetup fun _ => none).queueName = "orders.ready" ∧
    (consumerSetup fun _ => some "jobs").queueName = "jobs" ∧
    (consumerSetup fun _ => none).prefetch = 5 :=
  ⟨consumer_setup_spec.1 _, consumer_setup_spec.2.1 _ rfl,
   consumer_setup_spec.2.2.1 _ "jobs" rfl, consumer_setup_spec.2.2.2.2 _⟩

/-- A successful carrier build pairs each header key with the string
normalization of its value, in order. -/
theorem buildCarrier_forall2 (hs : List (String × HeaderVal)) (c : List (String × String))
    (h : buildCarrier hs = some c) :
    List.Forall₂
      (fun (hv : String × HeaderVal) (p : String × String) =>
        p.1 = hv.1 ∧ normalizeHeaderVal hv.2 = some p.2) hs c := by
  induction hs generalizing c with
  | nil =>
    rw [buildCarrier] at h
    cases h
    exact .nil
  | cons hd tl ih =>
    obtain ⟨k, v⟩ := hd
    rw [buildCarrier] at h
    cases hn : normalizeHeaderVal v with
    | none => rw [hn] at h; cases h
    | some s =>
      rw [hn] at h
      cases hb : buildCarrier tl with
      | none => rw [hb] at h; cases h
      | some ct =>
        rw [hb] at h
        simp only [Option.map_some] at h
        cases h
        exact .cons ⟨rfl, hn⟩ (ih ct hb)

/-- C1 amended: a message whose body is not valid JSON is negatively
acknowledged (reject, `requeue=False`) and logged as an error, but the
re-raised exception escapes the message iterator: the consumer loop
terminates and the remaining messages receive no disposition. -/
theorem nonjson_nacked_logged_terminates (m : Msg) (rest : List Msg)
    (hm : m.body = .notJson) :
    (handle_message m).result = .error () ∧
    (handle_message m).errorLogs = 1 ∧
    (consumeLoop (m :: rest)).dispositions = [(m, .nacked)] ∧
    (consumeLoop (m :: rest)).crashed = true := by
  have h : (handle_message m).result = .error () ∧ (handle_message m).errorLogs = 1 := by
    rw [handle_message]
    cases hb : buildCarrier m.headers with
    | none => exact ⟨rfl, rfl⟩
    | some c => rw [hm]; exact ⟨rfl, rfl⟩
  refine ⟨h.1, h.2, ?_, ?_⟩ <;> simp [consumeLoop, h.1, h.2]

/-- Witness for `nonjson_nacked_logged_terminates` at a concrete
message. -/
theorem nonjson_nacked_logged_terminates_witness :
    (consumeLoop [⟨[("k", .str "v")], .notJson⟩]).crashed = true :=
  (nonjson_nacked_logged_terminates ⟨[("k", .str "v")], .notJson⟩ [] rfl).2.2.2

/-- C1 counterexample: after a non-JSON message, a following well-formed
message is never processed — the loop records one disposition (the nack)
and ends by the escaping exception, refuting that the consumer continues
to accept subsequent messages. -/
theorem nonjson_continue_counterexample :
    (handle_message ⟨[], .notJson⟩).errorLogs = 1 ∧
    (consumeLoop [⟨[], .notJson⟩,
        ⟨[], .json (.obj [("order_id", .str "o1"), ("restaurant", .str "R")])⟩]).dispositions =
      [(⟨[], .notJson⟩, .nacked)] ∧
    (consumeLoop [⟨[], .notJson⟩,
        ⟨[], .json (.obj [("order_id", .str "o1"), ("restaurant", .str "R")])⟩]).crashed = true :=
  ⟨rfl, rfl, rfl⟩

/-- C2: a failing notification call (timeout, non-2xx, connection
error) is absorbed inside `process_delivery`: the returned Delivery and
the store are exactly those of a successful call, the record is
persisted, the failure is recorded on the span and logged as a warning,
and a message handled with any such outcome still completes normally, so
the consumer acknowledges it. -/
theorem notify_failure_isolated (order_id restaurant : String) (rng : Rng)
    (notify : NotifyOutcome) (store : List (String × Delivery)) (m : Msg)
    (c : List (String × String)) (fs : List (String × JVal))
    (hn : notifyRaises notify = true)
    (hc : buildCarrier m.headers = some c) (hb : m.body = .json (.obj fs)) :
    (process_delivery order_id restaurant rng notify store).delivery =
      (process_delivery order_id restaurant rng (.response 200) store).delivery ∧
    (process_delivery order_id restaurant rng notify store).store =
      (process_delivery order_id restaurant rng (.response 200) store).store ∧
    (process_delivery order_id restaurant rng notify store).store.lookup
        (rng.uuid.take 8) =
      some (process_delivery order_id restaurant rng notify store).delivery ∧
    (process_delivery order_id restaurant rng notify store).spanExceptions = 1 ∧
    (process_delivery order_id restaurant rng notify store).warnings = 1 ∧
    (consumeLoop [m]).dispositions = [(m, .acked)] ∧
    (consumeLoop [m]).crashed = false := by
  refine ⟨by simp [process_delivery], by simp [process_delivery], ?_, ?_, ?_, ?_, ?_⟩
  · simp only [process_delivery]
    exact lookup_pyDictInsert_self _ _ _
  · simp [process_delivery, hn]
  · simp [process_delivery, hn]
  · simp [consumeLoop, handle_message, hc, hb, jsonGet]
  · simp [consumeLoop, handle_message, hc, hb, jsonGet]

/-- Witness for `notify_failure_isolated`: a timed-out notification at a
concrete message still yields an acknowledged message. -/
theorem notify_failure_isolated_witness :
    (consumeLoop [⟨[], .json (.obj [])⟩]).dispositions =
      [(⟨[], .json (.obj [])⟩, .acked)] :=
  (notify_failure_isolated "o" "r" ⟨0, "u", 0, 0, 0, 0, 0, 0, 0⟩ .timeout []
    ⟨[], .json (.obj [])⟩ [] [] rfl rfl rfl).2.2.2.2.2.1

/-- C7 amended: for every message whose body is a valid JSON object with
no order_id and no restaurant field, the handler receives the sentinels
`unknown` and `Unknown` and the message is processed and acknowledged. -/
theorem sentinel_defaults (m : Msg) (c : List (String × String))
    (fs : List (String × JVal))
    (hc : buildCarrier m.headers = some c) (hb : m.body = .json (.obj fs))
    (ho : fs.lookup "order_id" = none) (hr : fs.lookup "restaurant" = none) :
    (handle_message m).result = .ok (.str "unknown", .str "Unknown") ∧
    (handle_message m).handlerCalls = [(.str "unknown", .str "Unknown")] ∧
    (consumeLoop [m]).dispositions = [(m, .acked)] ∧
    (consumeLoop [m]).crashed = false := by
  have h1 : (handle_message m).result = .ok (.str "unknown", .str "Unknown") := by
    simp [handle_message, hc, hb, jsonGet, ho, hr]
  refine ⟨h1, ?_, ?_, ?_⟩
  · simp [handle_message, hc, hb, jsonGet, ho, hr]
  · simp [consumeLoop, h1]
  · simp [consumeLoop, h1]

/-- Witness for `sentinel_defaults` at a concrete message. -/
theorem sentinel_defaults_witness :
    (handle_message ⟨[("traceparent",
        .str "00-11111111111111111111111111111111-2222222222222222-01")],
      .json (.obj [("other", .num 1)])⟩).result =
      .ok (.str "unknown", .str "Unknown") :=
  (sentinel_defaults
    ⟨[("traceparent",
        .str "00-11111111111111111111111111111111-2222222222222222-01")],
      .json (.obj [("other", .num 1)])⟩
    [("traceparent", "00-11111111111111111111111111111111-2222222222222222-01")]
    [("other", .num 1)] rfl rfl rfl rfl).1

/-- C7 counterexample: a body that is valid JSON but not a JSON object
(here the empty array) is not processed with sentinel defaults — the
`.get` call raises, the handler is never invoked, and the message is
negatively acknowledged. -/
theorem nonobject_json_counterexample :
    (handle_message ⟨[], .json (.arr [])⟩).result = .error () ∧
    (handle_message ⟨[], .json (.arr [])⟩).handlerCalls = [] ∧
    (consumeLoop [⟨[], .json (.arr [])⟩]).dispositions =
      [(⟨[], .json (.arr [])⟩, .nacked)] ∧
    (consumeLoop [⟨[], .json (.arr [])⟩]).crashed = true :=
  ⟨rfl, rfl, rfl, rfl⟩

/-- C8: whenever the carrier builds (all byte values decodable), it
pairs each header key with the string normalization of its value (bytes
decoded, other values stringified); and when the carrier's traceparent
is absent or invalid, extraction yields the fresh empty context and
message handling proceeds past extraction without raising. -/
theorem carrier_extraction_spec (m : Msg) (c : List (String × String))
    (hc : buildCarrier m.headers = some c)
    (hinv : ∀ s, c.lookup "traceparent" = some s → parseTraceparentVal s = none) :
    List.Forall₂
      (fun (hv : String × HeaderVal) (p : String × String) =>
        p.1 = hv.1 ∧ normalizeHeaderVal hv.2 = some p.2) m.headers c ∧
    extractContext c = none ∧
    (handle_message m).usedCtx = some none := by
  have hctx : extractContext c = none := by
    rw [extractContext]
    cases hl : c.lookup "traceparent" with
    | none => rfl
    | some s => simp [hinv s hl]
  refine ⟨buildCarrier_forall2 m.headers c hc, hctx, ?_⟩
  rw [handle_message, hc]
  cases m.body with
  | notJson => simp [hctx]
  | json v => cases v <;> simp [jsonGet, hctx]

/-- Witness for `carrier_extraction_spec`: a byte-valued garbled
traceparent header and an integer header normalize to strings, and
extraction yields the fresh context. -/
theorem carrier_extraction_spec_witness :
    extractContext [("traceparent", "garbage"), ("n", "5")] = none ∧
    (handle_message ⟨[("traceparent", .bytes [103, 97, 114, 98, 97, 103, 101]),
        ("n", .int 5)], .json (.obj [])⟩).usedCtx = some none := by
  have happ := carrier_extraction_spec
    ⟨[("traceparent", .bytes [103, 97, 114, 98, 97, 103, 101]), ("n", .int 5)],
      .json (.obj [])⟩
    [("traceparent", "garbage"), ("n", "5")] rfl
    (fun s hs => by
      have h2 : List.lookup "traceparent"
          [("traceparent", "garbage"), ("n", "5")] = some "garbage" := rfl
      rw [h2] at hs
      rw [← Option.some.inj hs]
      rfl)
  exact ⟨happ.2.1, happ.2.2⟩

/-- C5 counterexample: two calls whose fresh UUID draws are different
but agree on the first 8 characters produce the same Delivery id; the
second call overwrites the first record in the store (one entry remains,
holding the second, different Delivery), refuting lifetime uniqueness
and the never-overwritten property. -/
theorem delivery_id_overwrite_counterexample :
    ("11112222-aaaa-4bbb-8ccc-dddddddddddd" : String) ≠
      "11112222-eeee-4fff-8000-dddddddddddd" ∧
    (process_delivery "o2" "r2"
        ⟨1, "11112222-eeee-4fff-8000-dddddddddddd", 0, 0, 0, 0, 0, 7, 0⟩ .timeout
        (process_delivery "o1" "r1"
          ⟨0, "11112222-aaaa-4bbb-8ccc-dddddddddddd", 0, 0, 0, 0, 0, 0, 0⟩ .timeout
          []).store).delivery.id =
      (process_delivery "o1" "r1"
        ⟨0, "11112222-aaaa-4bbb-8ccc-dddddddddddd", 0, 0, 0, 0, 0, 0, 0⟩ .timeout
        []).delivery.id ∧
    (process_delivery "o2" "r2"
        ⟨1, "11112222-eeee-4fff-8000-dddddddddddd", 0, 0, 0, 0, 0, 7, 0⟩ .timeout
        (process_delivery "o1" "r1"
          ⟨0, "11112222-aaaa-4bbb-8ccc-dddddddddddd", 0, 0, 0, 0, 0, 0, 0⟩ .timeout
          []).store).delivery ≠
      (process_delivery "o1" "r1"
        ⟨0, "11112222-aaaa-4bbb-8ccc-dddddddddddd", 0, 0, 0, 0, 0, 0, 0⟩ .timeout
        []).delivery ∧
    (process_delivery "o2" "r2"
        ⟨1, "11112222-eeee-4fff-8000-dddddddddddd", 0, 0, 0, 0, 0, 7, 0⟩ .timeout
        (process_delivery "o1" "r1"
          ⟨0, "11112222-aaaa-4bbb-8ccc-dddddddddddd", 0, 0, 0, 0, 0, 0, 0⟩ .timeout
          []).store).store.lookup "11112222" =
      some (process_delivery "o2" "r2"
        ⟨1, "11112222-eeee-4fff-8000-dddddddddddd", 0, 0, 0, 0, 0, 7, 0⟩ .timeout
        (process_delivery "o1" "r1"
          ⟨0, "11112222-aaaa-4bbb-8ccc-dddddddddddd", 0, 0, 0, 0, 0, 0, 0⟩ .timeout
          []).store).delivery ∧
    (process_delivery "o2" "r2"
        ⟨1, "11112222-eeee-4fff-8000-dddddddddddd", 0, 0, 0, 0, 0, 7, 0⟩ .timeout
        (process_delivery "o1" "r1"
          ⟨0, "11112222-aaaa-4bbb-8ccc-dddddddddddd", 0, 0, 0, 0, 0, 0, 0⟩ .timeout
          []).store).store.length = 1 := by
  refine ⟨by decide, rfl, by decide, rfl, rfl⟩

/-- C5 amended: ids are the first 8 characters of the fresh UUID draw,
uniqueness is not enforced; when the drawn id is not already a store
key, the call appends exactly one entry and leaves every other key
untouched. -/
theorem delivery_store_append_only (order_id restaurant : String) (rng : Rng)
    (notify : NotifyOutcome) (store : List (String × Delivery))
    (hfresh : store.lookup (rng.uuid.take 8) = none) :
    (process_delivery order_id restaurant rng notify store).store =
      store ++ [(rng.uuid.take 8,
        (process_delivery order_id restaurant rng notify store).delivery)] ∧
    (∀ k2, k2 ≠ rng.uuid.take 8 →
      (process_delivery order_id restaurant rng notify store).store.lookup k2 =
        store.lookup k2) := by
  constructor
  · simp only [process_delivery]
    rw [pyDictInsert, if_neg (by rw [hfresh]; simp)]
  · intro k2 hk2
    simp only [process_delivery]
    exact lookup_pyDictInsert_ne _ _ _ _ hk2

/-- Witness for `delivery_store_append_only` on the empty store. -/
theorem delivery_store_append_only_witness :
    (process_delivery "o1" "r1"
        ⟨0, "aabbccdd-0000-4000-8000-000000000000", 0, 0, 0, 0, 0, 0, 0⟩ .timeout
        []).store =
      [] ++ [(("aabbccdd-0000-4000-8000-000000000000" : String).take 8,
        (process_delivery "o1" "r1"
          ⟨0, "aabbccdd-0000-4000-8000-000000000000", 0, 0, 0, 0, 0, 0, 0⟩ .timeout
          []).delivery)] :=
  (delivery_store_append_only "o1" "r1"
    ⟨0, "aabbccdd-0000-4000-8000-000000000000", 0, 0, 0, 0, 0, 0, 0⟩ .timeout [] rfl).1

/-- C10: every `process_delivery` call emits exactly one counter
increment of 1 and exactly one histogram observation, both tagged with
the assigned driver; the observed value is the dedicated
`uniform(10, 40)` draw, lies in `[10, 40]`, and is unchanged when the
ETA draw and the pickup-delay draw change. -/
theorem metric_emission_spec (order_id restaurant : String) (rng : Rng)
    (notify : NotifyOutcome) (store : List (String × Delivery)) (e : ℕ) (d : ℚ)
    (h0 : 0 ≤ rng.durU) (h1 : rng.durU < 1) :
    (process_delivery order_id restaurant rng notify store).counterEvents =
      [(1, (process_delivery order_id restaurant rng notify store).delivery.driver)] ∧
    (process_delivery order_id restaurant rng notify store).histEvents =
      [(pyUniform 10 40 rng.durU,
        (process_delivery order_id restaurant rng notify store).delivery.driver)] ∧
    10 ≤ pyUniform 10 40 rng.durU ∧ pyUniform 10 40 rng.durU ≤ 40 ∧
    (process_delivery order_id restaurant
        { rng with estDraw := e, delayU := d } notify store).histEvents =
      (process_delivery order_id restaurant rng notify store).histEvents := by
  refine ⟨by simp [process_delivery], by simp [process_delivery], ?_, ?_,
    by simp [process_delivery]⟩
  · exact (pyUniform_bounds 10 40 rng.durU (by norm_num) h0 h1).1
  · exact (pyUniform_bounds 10 40 rng.durU (by norm_num) h0 h1).2

/-- Witness for `metric_emission_spec` at the draw one half. -/
theorem metric_emission_spec_witness :
    10 ≤ pyUniform 10 40 (1/2) ∧ pyUniform 10 40 (1/2) ≤ 40 :=
  ⟨(metric_emission_spec "o" "r" ⟨0, "u", 0, 0, 0, 0, 0, 3, 1/2⟩ .timeout [] 4 0
      (by norm_num) (by norm_num)).2.2.1,
   (metric_emission_spec "o" "r" ⟨0, "u", 0, 0, 0, 0, 0, 3, 1/2⟩ .timeout [] 4 0
      (by norm_num) (by norm_num)).2.2.2.1⟩
